import Mathlib

/-!
Shallow embedding of `src/histolab/slide.py` (classes `Slide` and `SlideSet`).

Modelling conventions:
* Python exceptions surfaced by this module become constructors of `PyError`;
  fallible operations return `Except PyError _`.
* The external `openslide` container collaborator is a pure environment
  `ContainerEnv` mapping a path string to the outcome of `openslide.open_slide`:
  either the container's native `(width, height)` or one of the two failures the
  code distinguishes (`OpenSlideError` for a corrupt file, `FileNotFoundError`
  for a missing one).  Every property access in the Python reopens the
  container; the environment is a pure function, so repeated reads agree.
* The directory listing `os.listdir(slides_path)` is a parameter
  `ls : List String` of entry names.
* The filesystem of output files is `FS := List String`, the list of paths
  written so far, in write order; `img.save(path)` appends `path`.  Directory
  creation (`os.makedirs`, idempotent, guaranteed not to fail) has no
  observable effect on this state and is not tracked.
* Python `math.floor(w / sf)` on naturals is modelled as exact floor division
  `w / sf` on `Nat` (slide dimensions are far below the 2^53 range where CPython
  float division could deviate from the exact rational); `w / 0` in Python
  raises `ZeroDivisionError`, modelled explicitly.
* Decoded images are opaque collaborator values (spec sections 1 and 6: decoding,
  resizing and plotting are out of scope); an image produced by `_resample` is
  represented by its pixel dimensions, which is all the module observes of it.
-/

/-- Python exception kinds raised (or claimed to be raised) by this module.
`emptyCollectionError` is the spec's name for a dedicated empty-collection
error taxon (spec section 7); the code itself never constructs such an error, the
constructor exists so that spec-level statements about it can be written down. -/
inductive PyError where
  | openSlideError
  | fileNotFoundError
  | valueError
  | zeroDivisionError
  | typeError
  | emptyCollectionError
  deriving DecidableEq, Repr

/-- Outcome of `openslide.open_slide(path)` for one path: a readable container
with native dimensions, a corrupt container, or a missing file. -/
inductive OpenResult where
  | ok (w h : Nat)
  | corrupt
  | missing
  deriving DecidableEq, Repr

/-- Whether opening the container succeeds. -/
def OpenResult.isOk : OpenResult → Bool
  | .ok _ _ => true
  | .corrupt => false
  | .missing => false

abbrev ContainerEnv : Type := String → OpenResult

abbrev FS : Type := List String

def IMG_EXT : String := "png"

def THUMBNAIL_SIZE : Nat := 300

/-- Source `ntpath.basename`: the part of the path after the last directory separator.
`ntpath` treats both `/` and `\` as separators.  (Windows drive-letter prefixes
such as `C:` are outside the modelled path shapes.) -/
def ntBasename (p : String) : String :=
  String.mk (((p.toList.reverse).takeWhile (fun c => c ≠ '/' ∧ c ≠ '\\')).reverse)

/-- Python `str.split(sep)` for a one-character separator: always returns a
non-empty list of (possibly empty) fragments; `"".split(".") = [""]`. -/
def pySplit (sep : Char) : List Char → List (List Char)
  | [] => [[]]
  | c :: cs =>
    if c = sep then [] :: pySplit sep cs
    else
      match pySplit sep cs with
      | r :: rs => (c :: r) :: rs
      | [] => [[c]]

/-- Source `os.path.join(a, b)` with POSIX semantics: an absolute `b` discards `a`;
otherwise a separator is inserted unless `a` is empty or already ends in one. -/
def pathJoin (a b : String) : String :=
  if b.toList.head? = some '/' then b
  else if a = "" ∨ a.toList.getLast? = some '/' then a ++ b
  else a ++ "/" ++ b

/-- Source `os.path.splitext(p)[1]` (POSIX): the extension of the final path
component, i.e. the segment starting at its last dot — provided some character
of the component strictly before that dot is not itself a dot (leading dots
belong to the name: `splitext(".bashrc") = (".bashrc", "")`). -/
def pySplitextExt (p : String) : String :=
  let base := ((p.toList.reverse).takeWhile (fun c => c ≠ '/')).reverse
  let r := base.reverse
  let extR := r.takeWhile (fun c => c ≠ '.')
  if extR.length = r.length then ""
  else
    let stemR := r.drop (extR.length + 1)
    if stemR.all (fun c => c = '.') then ""
    else String.mk ('.' :: extR.reverse)

/-- Source `Slide.__init__` state: the two path strings. -/
structure Slide where
  path : String
  processed_path : String
  deriving DecidableEq, Repr

/-- Source `Slide.name`: `ntpath.basename(self._path).split(".")[0]`. -/
def Slide.name (s : Slide) : String :=
  String.mk ((pySplit '.' (ntBasename s.path).toList).headD [])

/-- Source `Slide.thumbnail_path`:
`os.path.join(processed_path, "thumbnails", f"{name}.{IMG_EXT}")`. -/
def Slide.thumbnail_path (s : Slide) : String :=
  pathJoin (pathJoin s.processed_path "thumbnails") (s.name ++ "." ++ IMG_EXT)

/-- Source `Slide._wsi`: reopen the container at `self._path`; a corrupt container
reraises `OpenSlideError`, a missing file reraises `FileNotFoundError` (the
code only rewords the messages).  Its `dimensions` are what the module reads. -/
def Slide.wsiDims (env : ContainerEnv) (s : Slide) : Except PyError (Nat × Nat) :=
  match env s.path with
  | .ok w h => .ok (w, h)
  | .corrupt => .error .openSlideError
  | .missing => .error .fileNotFoundError

/-- Source `Slide.dimensions`: `self._wsi.dimensions` (fresh container read). -/
def Slide.dimensions (env : ContainerEnv) (s : Slide) : Except PyError (Nat × Nat) :=
  s.wsiDims env

/-- Source `Slide._resampled_dimensions(scale_factor)`:
`(large_w, large_h, floor(large_w / sf), floor(large_h / sf))`. -/
def Slide.resampled_dimensions (env : ContainerEnv) (s : Slide) (sf : Nat) :
    Except PyError (Nat × Nat × Nat × Nat) :=
  match s.dimensions env with
  | .error e => .error e
  | .ok (w, h) =>
    if sf = 0 then .error .zeroDivisionError
    else .ok (w, h, w / sf, h / sf)

/-- Render a dynamically-typed dimension value the way a Python f-string does:
an int prints as its decimal digits, `None` prints as `None`. -/
def fmtDim : Option Nat → String
  | some n => toString n
  | none => "None"

/-- Source `Slide._breadcumb(directory_path, scale_factor)`.  The four unpacked values
are dynamically typed in Python, so they are injected into `Option Nat` here;
the code's `{large_w, large_h, new_w, new_h} == {None}` test (true exactly when
all four are `None`) selects the wildcard pattern, otherwise the full
deterministic file name is assembled. -/
def Slide.breadcumb (env : ContainerEnv) (s : Slide) (directory_path : String)
    (sf : Nat) : Except PyError String :=
  match s.resampled_dimensions env sf with
  | .error e => .error e
  | .ok (lw, lh, nw, nh) =>
    let olw : Option Nat := some lw
    let olh : Option Nat := some lh
    let onw : Option Nat := some nw
    let onh : Option Nat := some nh
    if olw = none ∧ olh = none ∧ onw = none ∧ onh = none then
      .ok (pathJoin directory_path (s.name ++ "*." ++ IMG_EXT))
    else
      .ok (pathJoin directory_path
        (s.name ++ "-" ++ toString sf ++ "x-" ++ fmtDim olw ++ "x" ++ fmtDim olh
          ++ "-" ++ fmtDim onw ++ "x" ++ fmtDim onh ++ "." ++ IMG_EXT))

/-- Source `Slide.scaled_image_path(scale_factor)`: `self._breadcumb(self._processed_path, sf)`. -/
def Slide.scaled_image_path (env : ContainerEnv) (s : Slide) (sf : Nat) :
    Except PyError String :=
  s.breadcumb env s.processed_path sf

/-- Source `Slide._resample(scale_factor)`: reads the resampled dimensions, reopens the
container for the level query / region read (collaborator calls), and yields the
resized image, observable only through its `(new_w, new_h)` dimensions. -/
def Slide.resample (env : ContainerEnv) (s : Slide) (sf : Nat) :
    Except PyError (Nat × Nat) :=
  match s.resampled_dimensions env sf with
  | .error e => .error e
  | .ok (_, _, nw, nh) =>
    match s.wsiDims env with
    | .error e => .error e
    | .ok _ => .ok (nw, nh)

/-- Source `Slide.save_scaled_image(scale_factor)`: `os.makedirs` (untracked), resample,
then write the image at `scaled_image_path(scale_factor)`. -/
def Slide.save_scaled_image (env : ContainerEnv) (s : Slide) (sf : Nat) (fs : FS) :
    Except PyError FS :=
  match s.resample env sf with
  | .error e => .error e
  | .ok _ =>
    match s.scaled_image_path env sf with
    | .error e => .error e
    | .ok p => .ok (fs ++ [p])

/-- Body of `Slide.save_thumbnail()`: `os.makedirs`, read the container's
thumbnail (a fresh `self._wsi` open), `mkdir` of the thumbnails folder, then
write at `thumbnail_path`. -/
def Slide.save_thumbnail (env : ContainerEnv) (s : Slide) (fs : FS) :
    Except PyError FS :=
  match s.wsiDims env with
  | .error e => .error e
  | .ok _ => .ok (fs ++ [s.thumbnail_path])

/-- A *call* `slide.save_thumbnail(...)` with `posArgs` positional arguments
besides `self`.  `def save_thumbnail(self)` declares no further parameter, so
the Python runtime raises `TypeError` before the body runs whenever
`posArgs ≠ 0`. -/
def Slide.call_save_thumbnail (env : ContainerEnv) (s : Slide) (posArgs : Nat)
    (fs : FS) : Except PyError FS :=
  if posArgs ≠ 0 then .error .typeError
  else s.save_thumbnail env fs

/-- Source `SlideSet.__init__` state. -/
structure SlideSet where
  slides_path : String
  processed_path : String
  valid_wsi_extensions : List String
  deriving DecidableEq, Repr

/-- Source `SlideSet.slides`: one `Slide` per entry of `os.listdir(slides_path)` whose
`os.path.splitext` extension is a member of the configured set, built with
`os.path.join(slides_path, entry)` and the shared `processed_path`. -/
def SlideSet.slides (ss : SlideSet) (ls : List String) : List Slide :=
  (ls.filter (fun e => pySplitextExt e ∈ ss.valid_wsi_extensions)).map
    (fun e => { path := pathJoin ss.slides_path e, processed_path := ss.processed_path })

/-- Source `SlideSet.total_slides`: `len(self.slides)`. -/
def SlideSet.total_slides (ss : SlideSet) (ls : List String) : Nat :=
  (ss.slides ls).length

/-- One record of `SlideSet.slides_dimensions`:
`{"wsi": name, "width": w, "height": h, "size": w * h}`. -/
structure SlideDim where
  wsi : String
  width : Nat
  height : Nat
  size : Nat
  deriving DecidableEq, Repr

/-- The dimension records of a list of slides, in order; the first container
failure aborts the whole aggregation (Python list comprehension raising on the
offending slide).  Each Python field access reopens the container; since the
environment is a pure function, one read per slide is observationally equal. -/
def slidesDimList (env : ContainerEnv) : List Slide → Except PyError (List SlideDim)
  | [] => .ok []
  | s :: rest =>
    match s.dimensions env with
    | .error e => .error e
    | .ok (w, h) =>
      match slidesDimList env rest with
      | .error e => .error e
      | .ok ds => .ok ({ wsi := s.name, width := w, height := h, size := w * h } :: ds)

/-- Source `SlideSet.slides_dimensions`. -/
def SlideSet.slides_dimensions (ss : SlideSet) (env : ContainerEnv) (ls : List String) :
    Except PyError (List SlideDim) :=
  slidesDimList env (ss.slides ls)

/-- Python `max(list, key=k)`: the first element attaining the maximal key
(`>` comparison replaces the running maximum only when strictly greater);
`max([])` raises `ValueError`, modelled as `none`. -/
def pyMaxBy (k : SlideDim → Nat) : List SlideDim → Option SlideDim
  | [] => none
  | x :: xs => some (xs.foldl (fun b a => if k a > k b then a else b) x)

/-- Python `min(list, key=k)`: the first element attaining the minimal key;
`min([])` raises `ValueError`, modelled as `none`. -/
def pyMinBy (k : SlideDim → Nat) : List SlideDim → Option SlideDim
  | [] => none
  | x :: xs => some (xs.foldl (fun b a => if k a < k b then a else b) x)

/-- A value of the `basic_stats` dict: the slide count, an extremal record
`{"slide": name, key: value}` (the inner dict's second key is recorded
explicitly, since the code does not use the same key for every entry), or an
average.  Python's `sum(...) / total` is true division; it is modelled as the
exact rational. -/
inductive StatVal where
  | count (n : Nat)
  | tagged (slide : String) (key : String) (value : Nat)
  | avg (q : ℚ)
  deriving DecidableEq, Repr

/-- Source `SlideSet._max_width_slide`. -/
def SlideSet.max_width_slide (ss : SlideSet) (env : ContainerEnv) (ls : List String) :
    Except PyError StatVal :=
  match ss.slides_dimensions env ls with
  | .error e => .error e
  | .ok ds =>
    match pyMaxBy (fun d => d.width) ds with
    | none => .error .valueError
    | some d => .ok (.tagged d.wsi "width" d.width)

/-- Source `SlideSet._max_height_slide`. -/
def SlideSet.max_height_slide (ss : SlideSet) (env : ContainerEnv) (ls : List String) :
    Except PyError StatVal :=
  match ss.slides_dimensions env ls with
  | .error e => .error e
  | .ok ds =>
    match pyMaxBy (fun d => d.height) ds with
    | none => .error .valueError
    | some d => .ok (.tagged d.wsi "height" d.height)

/-- Source `SlideSet._max_size_slide`. -/
def SlideSet.max_size_slide (ss : SlideSet) (env : ContainerEnv) (ls : List String) :
    Except PyError StatVal :=
  match ss.slides_dimensions env ls with
  | .error e => .error e
  | .ok ds =>
    match pyMaxBy (fun d => d.size) ds with
    | none => .error .valueError
    | some d => .ok (.tagged d.wsi "size" d.size)

/-- Source `SlideSet._min_width_slide`. -/
def SlideSet.min_width_slide (ss : SlideSet) (env : ContainerEnv) (ls : List String) :
    Except PyError StatVal :=
  match ss.slides_dimensions env ls with
  | .error e => .error e
  | .ok ds =>
    match pyMinBy (fun d => d.width) ds with
    | none => .error .valueError
    | some d => .ok (.tagged d.wsi "width" d.width)

/-- Source `SlideSet._min_height_slide`. -/
def SlideSet.min_height_slide (ss : SlideSet) (env : ContainerEnv) (ls : List String) :
    Except PyError StatVal :=
  match ss.slides_dimensions env ls with
  | .error e => .error e
  | .ok ds =>
    match pyMinBy (fun d => d.height) ds with
    | none => .error .valueError
    | some d => .ok (.tagged d.wsi "height" d.height)

/-- Source `SlideSet._min_size_slide`: the source returns
`{"slide": min_size["wsi"], "height": min_size["size"]}` — the minimal *size*
value stored under the inner key `"height"` (slide.py line 385). -/
def SlideSet.min_size_slide (ss : SlideSet) (env : ContainerEnv) (ls : List String) :
    Except PyError StatVal :=
  match ss.slides_dimensions env ls with
  | .error e => .error e
  | .ok ds =>
    match pyMinBy (fun d => d.size) ds with
    | none => .error .valueError
    | some d => .ok (.tagged d.wsi "height" d.size)

/-- Source `SlideSet._avg_width_slide`: `sum(widths) / total_slides`, `ZeroDivisionError`
on an empty collection. -/
def SlideSet.avg_width_slide (ss : SlideSet) (env : ContainerEnv) (ls : List String) :
    Except PyError StatVal :=
  match ss.slides_dimensions env ls with
  | .error e => .error e
  | .ok ds =>
    if ss.total_slides ls = 0 then .error .zeroDivisionError
    else .ok (.avg (((ds.map (fun d => d.width)).sum : ℚ) / (ss.total_slides ls : ℚ)))

/-- Source `SlideSet._avg_height_slide`. -/
def SlideSet.avg_height_slide (ss : SlideSet) (env : ContainerEnv) (ls : List String) :
    Except PyError StatVal :=
  match ss.slides_dimensions env ls with
  | .error e => .error e
  | .ok ds =>
    if ss.total_slides ls = 0 then .error .zeroDivisionError
    else .ok (.avg (((ds.map (fun d => d.height)).sum : ℚ) / (ss.total_slides ls : ℚ)))

/-- Source `SlideSet._avg_size_slide`. -/
def SlideSet.avg_size_slide (ss : SlideSet) (env : ContainerEnv) (ls : List String) :
    Except PyError StatVal :=
  match ss.slides_dimensions env ls with
  | .error e => .error e
  | .ok ds =>
    if ss.total_slides ls = 0 then .error .zeroDivisionError
    else .ok (.avg (((ds.map (fun d => d.size)).sum : ℚ) / (ss.total_slides ls : ℚ)))

/-- Source `SlideSet.slides_stats`: the `basic_stats` dict, evaluated key by key in
source order (`no_of_slides`, then the three maxima, the three minima, the
three averages); the first helper that raises aborts the call.  The scatter
figure also returned by the Python is produced by the plotting collaborator
from dimensions already read and is out of the modelled scope (spec sections 2
and 6). -/
def SlideSet.slides_stats (ss : SlideSet) (env : ContainerEnv) (ls : List String) :
    Except PyError (List (String × StatVal)) :=
  match ss.max_width_slide env ls with
  | .error e => .error e
  | .ok maxw =>
  match ss.max_height_slide env ls with
  | .error e => .error e
  | .ok maxh =>
  match ss.max_size_slide env ls with
  | .error e => .error e
  | .ok maxs =>
  match ss.min_width_slide env ls with
  | .error e => .error e
  | .ok minw =>
  match ss.min_height_slide env ls with
  | .error e => .error e
  | .ok minh =>
  match ss.min_size_slide env ls with
  | .error e => .error e
  | .ok mins =>
  match ss.avg_width_slide env ls with
  | .error e => .error e
  | .ok avgw =>
  match ss.avg_height_slide env ls with
  | .error e => .error e
  | .ok avgh =>
  match ss.avg_size_slide env ls with
  | .error e => .error e
  | .ok avgs =>
    .ok [("no_of_slides", .count (ss.total_slides ls)),
         ("max_width", maxw), ("max_height", maxh), ("max_size", maxs),
         ("min_width", minw), ("min_height", minh), ("min_size", mins),
         ("avg_width", avgw), ("avg_height", avgh), ("avg_size", avgs)]

/-- The loop of `save_rescaled_slides`: `slide.save_scaled_image()` (default
`scale_factor=32`) on each slide in order, threading the filesystem. -/
def saveScaledLoop (env : ContainerEnv) : List Slide → FS → Except PyError FS
  | [], fs => .ok fs
  | s :: rest, fs =>
    match s.save_scaled_image env 32 fs with
    | .error e => .error e
    | .ok fs2 => saveScaledLoop env rest fs2

/-- Source `SlideSet.save_rescaled_slides(n=0)`: `os.makedirs` (untracked), then
`n = total_slides if (n > total_slides or n == 0) else n` and the loop over
`self.slides[:n]`. -/
def SlideSet.save_rescaled_slides (ss : SlideSet) (env : ContainerEnv)
    (ls : List String) (n : Nat) (fs : FS) : Except PyError FS :=
  let t := ss.total_slides ls
  let n2 := if n > t ∨ n = 0 then t else n
  saveScaledLoop env ((ss.slides ls).take n2) fs

/-- The loop of `save_thumbnails`: the source (slide.py line 253) calls
`slide.save_thumbnail(scale_factor)` — one positional argument passed to a
method declared with none. -/
def saveThumbLoop (env : ContainerEnv) : List Slide → FS → Except PyError FS
  | [], fs => .ok fs
  | s :: rest, fs =>
    match s.call_save_thumbnail env 1 fs with
    | .error e => .error e
    | .ok fs2 => saveThumbLoop env rest fs2

/-- Source `SlideSet.save_thumbnails(scale_factor=32, n=0)`: `os.makedirs`
(untracked), the same clamping of `n`, then the loop over `self.slides[:n]`. -/
def SlideSet.save_thumbnails (ss : SlideSet) (env : ContainerEnv)
    (ls : List String) (n : Nat) (fs : FS) : Except PyError FS :=
  let t := ss.total_slides ls
  let n2 := if n > t ∨ n = 0 then t else n
  saveThumbLoop env ((ss.slides ls).take n2) fs

/-- Equality of `Except` results is decidable when both components' is. -/
instance instDecEqExcept {ε α : Type} [DecidableEq ε] [DecidableEq α] :
    DecidableEq (Except ε α)
  | .error a, .error b =>
    if h : a = b then .isTrue (by rw [h]) else .isFalse (by simp [h])
  | .error _, .ok _ => .isFalse (by simp)
  | .ok _, .error _ => .isFalse (by simp)
  | .ok a, .ok b =>
    if h : a = b then .isTrue (by rw [h]) else .isFalse (by simp [h])

/-- Concrete container environment with one small slide, `wsi/a.svs`, of native
dimensions 100 by 5 (small enough that the scaled height floors to 0). -/
def envSmall : ContainerEnv := fun p => if p = "wsi/a.svs" then .ok 100 5 else .missing

/-- The slide stored at `wsi/a.svs`, processed into `proc`. -/
def slideSmall : Slide := { path := "wsi/a.svs", processed_path := "proc" }

/-- Concrete container environment with one slide of native dimensions
3200 by 1600, the end-to-end scenario of the spec. -/
def envLarge : ContainerEnv :=
  fun p => if p = "wsi/mywsi.svs" then .ok 3200 1600 else .missing

/-- The slide stored at `wsi/mywsi.svs`, processed into `proc`. -/
def slideLarge : Slide := { path := "wsi/mywsi.svs", processed_path := "proc" }

/-- A slide named `x` living in directory `a`. -/
def slideLeft : Slide := { path := "a/x.svs", processed_path := "out" }

/-- A slide also named `x`, living in the different directory `b`. -/
def slideRight : Slide := { path := "b/x.svs", processed_path := "out" }

/-- Environment resolving `slideLeft` to a 64 by 48 container. -/
def envLeft : ContainerEnv := fun p => if p = "a/x.svs" then .ok 64 48 else .missing

/-- Environment resolving `slideRight` to an identical 64 by 48 container
(and everything else to a corrupt one, unlike `envLeft`). -/
def envRight : ContainerEnv := fun p => if p = "b/x.svs" then .ok 64 48 else .corrupt

/-- A slide set over directory `in`, output `proc`, accepting only `.svs`. -/
def demoSet : SlideSet :=
  { slides_path := "in", processed_path := "proc", valid_wsi_extensions := [".svs"] }

/-- Directory listing with three valid slides and one spurious text file. -/
def demoListing : List String := ["s1.svs", "s2.svs", "s3.svs", "notes.txt"]

/-- Containers for `demoListing`: dimensions 100 by 100, 200 by 50 and 50 by 300
(the three-slide aggregate scenario of the spec, section 8). -/
def demoEnv : ContainerEnv := fun p =>
  if p = "in/s1.svs" then .ok 100 100
  else if p = "in/s2.svs" then .ok 200 50
  else if p = "in/s3.svs" then .ok 50 300
  else .missing

/-- Directory listing holding no file with a valid extension: the collection it
induces is empty. -/
def textOnlyListing : List String := ["readme.txt"]

/-- Helper: when the container read succeeds and the scale factor is positive,
`_resampled_dimensions` is the floor-division quadruple. -/
theorem resampledDimensionsOk (env : ContainerEnv) (s : Slide) (sf w h : Nat)
    (hsf : 0 < sf) (henv : env s.path = .ok w h) :
    s.resampled_dimensions env sf = .ok (w, h, w / sf, h / sf) := by
  unfold Slide.resampled_dimensions Slide.dimensions Slide.wsiDims
  rw [henv]
  simp [Nat.pos_iff_ne_zero.mp hsf]

/-- Helper: under the same conditions `_breadcumb` produces the deterministic
file name under the given directory. -/
theorem breadcumbOk (env : ContainerEnv) (s : Slide) (dir : String) (sf w h : Nat)
    (hsf : 0 < sf) (henv : env s.path = .ok w h) :
    s.breadcumb env dir sf = .ok (pathJoin dir
      (s.name ++ "-" ++ toString sf ++ "x-" ++ toString w ++ "x" ++ toString h
        ++ "-" ++ toString (w / sf) ++ "x" ++ toString (h / sf) ++ "." ++ IMG_EXT)) := by
  unfold Slide.breadcumb
  rw [resampledDimensionsOk env s sf w h hsf henv]
  simp [fmtDim]

/-- Helper: appending on the left of a string equality cancels. -/
theorem stringAppendCancelLeft (a b c : String) (h : a ++ b = a ++ c) : b = c := by
  have h2 : (a ++ b).data = (a ++ c).data := by rw [h]
  have h3 : a.data ++ b.data = a.data ++ c.data := by
    simpa [String.data_append] using h2
  have h4 : b.data = c.data := List.append_cancel_left h3
  cases b; cases c; exact congrArg String.mk h4

/-- Helper: for entry names that do not begin with a separator, `pathJoin` with
a fixed directory is injective in the entry. -/
theorem pathJoinRightInj (d e f : String)
    (he : e.toList.head? ≠ some '/') (hf : f.toList.head? ≠ some '/')
    (h : pathJoin d e = pathJoin d f) : e = f := by
  unfold pathJoin at h
  rw [if_neg he, if_neg hf] at h
  by_cases hd : d = "" ∨ d.toList.getLast? = some '/'
  · rw [if_pos hd, if_pos hd] at h
    exact stringAppendCancelLeft d e f h
  · rw [if_neg hd, if_neg hd] at h
    exact stringAppendCancelLeft (d ++ "/") e f h

/-- Helper: Python `split` never yields an empty fragment list. -/
theorem pySplit_ne_nil (sep : Char) (l : List Char) : pySplit sep l ≠ [] := by
  induction l with
  | nil => simp [pySplit]
  | cons c cs ih =>
    unfold pySplit
    by_cases hc : c = sep
    · simp [hc]
    · simp only [hc, if_false]
      cases hps : pySplit sep cs with
      | nil => exact absurd hps ih
      | cons r rs => simp

/-- Helper: the first fragment of Python `split` is the longest
separator-free prefix. -/
theorem pySplit_headD (sep : Char) (l : List Char) :
    (pySplit sep l).headD [] = l.takeWhile (fun c => c ≠ sep) := by
  induction l with
  | nil => simp [pySplit]
  | cons c cs ih =>
    unfold pySplit
    by_cases hc : c = sep
    · simp [hc, List.takeWhile]
    · simp only [hc, if_false]
      cases hps : pySplit sep cs with
      | nil => exact absurd hps (pySplit_ne_nil sep cs)
      | cons r rs =>
        rw [hps] at ih
        simp only [List.headD] at ih ⊢
        rw [List.takeWhile_cons]
        simp [hc, ih]

/-- Helper: `save_scaled_image` with a readable container writes exactly one
file on top of the existing state. -/
theorem saveScaledImageOk (env : ContainerEnv) (s : Slide) (fs : FS) (w h : Nat)
    (henv : env s.path = .ok w h) :
    ∃ p, s.save_scaled_image env 32 fs = .ok (fs ++ [p]) := by
  unfold Slide.save_scaled_image Slide.resample Slide.scaled_image_path
    Slide.breadcumb Slide.resampled_dimensions Slide.dimensions Slide.wsiDims
  rw [henv]
  simp

/-- Helper: the rescale loop over readable slides succeeds and writes one file
per slide. -/
theorem saveScaledLoopOk (env : ContainerEnv) (l : List Slide) (fs : FS)
    (hread : ∀ s ∈ l, (env s.path).isOk = true) :
    ∃ fs2, saveScaledLoop env l fs = .ok fs2 ∧ fs2.length = fs.length + l.length := by
  induction l generalizing fs with
  | nil => exact ⟨fs, rfl, by simp [saveScaledLoop]⟩
  | cons s rest ih =>
    have hs : (env s.path).isOk = true := hread s (List.mem_cons_self s rest)
    obtain ⟨w, h, henv⟩ : ∃ w h, env s.path = .ok w h := by
      cases henv : env s.path with
      | ok w h => exact ⟨w, h, rfl⟩
      | corrupt => rw [henv] at hs; simp [OpenResult.isOk] at hs
      | missing => rw [henv] at hs; simp [OpenResult.isOk] at hs
    obtain ⟨p, hp⟩ := saveScaledImageOk env s fs w h henv
    obtain ⟨fs2, hloop, hlen⟩ :=
      ih (fs ++ [p]) (fun t ht => hread t (List.mem_cons_of_mem s ht))
    refine ⟨fs2, ?_, ?_⟩
    · unfold saveScaledLoop
      rw [hp]
      exact hloop
    · rw [hlen]
      simp
      omega

/-- C1: for every positive scale factor and container dimensions `(w, h)`
successfully read, `_resampled_dimensions` returns exactly
`(w, h, floor(w / sf), floor(h / sf))`; floors of 0 are ordinary outputs. -/
theorem resampled_dimensions_floor_div (env : ContainerEnv) (s : Slide)
    (sf w h : Nat) (hsf : 0 < sf) (henv : env s.path = .ok w h) :
    s.resampled_dimensions env sf = .ok (w, h, w / sf, h / sf) :=
  resampledDimensionsOk env s sf w h hsf henv

/-- Witness for C1: native dimensions 100 by 5 at scale factor 32 give the
quadruple (100, 5, 3, 0) — a zero scaled height, returned as a value. -/
theorem resampled_dimensions_floor_div_witness :
    slideSmall.resampled_dimensions envSmall 32 = .ok (100, 5, 3, 0) :=
  (resampled_dimensions_floor_div envSmall slideSmall 32 100 5 (by decide)
    (by decide)).trans (by decide)

/-- C2: when the container dimensions can be read, `scaled_image_path` is the
output directory joined with
`<name>-<sf>x-<orig_w>x<orig_h>-<new_w>x<new_h>.png`. -/
theorem scaled_image_path_format (env : ContainerEnv) (s : Slide) (sf w h : Nat)
    (hsf : 0 < sf) (henv : env s.path = .ok w h) :
    s.scaled_image_path env sf = .ok (pathJoin s.processed_path
      (s.name ++ "-" ++ toString sf ++ "x-" ++ toString w ++ "x" ++ toString h
        ++ "-" ++ toString (w / sf) ++ "x" ++ toString (h / sf) ++ "." ++ IMG_EXT)) := by
  unfold Slide.scaled_image_path
  exact breadcumbOk env s s.processed_path sf w h hsf henv

/-- Witness for C2: native dimensions (3200, 1600) at scale factor 32 give the
exact path `proc/mywsi-32x-3200x1600-100x50.png`. -/
theorem scaled_image_path_format_witness :
    slideLarge.scaled_image_path envLarge 32
      = .ok "proc/mywsi-32x-3200x1600-100x50.png" :=
  (scaled_image_path_format envLarge slideLarge 32 3200 1600 (by decide)
    (by decide)).trans (by decide)

/-- C3 (amended): on a collection with `total_slides == 0`, `slides_stats`
raises the `ValueError` coming from `max()` over the empty dimension list — it
fails rather than returning any default record. -/
theorem slides_stats_empty_value_error (ss : SlideSet) (env : ContainerEnv)
    (ls : List String) (h : ss.total_slides ls = 0) :
    ss.slides_stats env ls = .error .valueError := by
  have hnil : ss.slides ls = [] := List.length_eq_zero.mp h
  unfold SlideSet.slides_stats SlideSet.max_width_slide SlideSet.slides_dimensions
  rw [hnil]
  simp [slidesDimList, pyMaxBy]

/-- Witness for C3 (amended): a listing holding only `readme.txt` yields an
empty collection and `slides_stats` fails with `ValueError`. -/
theorem slides_stats_empty_value_error_witness :
    demoSet.slides_stats demoEnv textOnlyListing = .error .valueError :=
  slides_stats_empty_value_error demoSet demoEnv textOnlyListing (by decide)

/-- Counterexample for C3 as stated: on the empty collection the failure is the
generic `ValueError` of `max()`, not a dedicated `EmptyCollectionError`. -/
theorem slides_stats_empty_error_kind_counterexample :
    demoSet.total_slides textOnlyListing = 0
    ∧ demoSet.slides_stats demoEnv textOnlyListing = .error .valueError
    ∧ demoSet.slides_stats demoEnv textOnlyListing ≠ .error .emptyCollectionError :=
  ⟨by decide, by decide, by decide⟩

/-- C4 (bug evidence): a one-slide collection whose container is readable, yet
`save_thumbnails` fails with `TypeError`: the loop calls
`slide.save_thumbnail(scale_factor)` while `Slide.save_thumbnail` is declared
with no parameter, so no thumbnail is ever written. -/
theorem save_thumbnails_type_error_bug :
    demoSet.total_slides ["s1.svs"] = 1
    ∧ (demoEnv (pathJoin "in" "s1.svs")).isOk = true
    ∧ demoSet.save_thumbnails demoEnv ["s1.svs"] 0 [] = .error .typeError :=
  ⟨by decide, by decide, by decide⟩

/-- C5 (amended): `Slide.name` is the base filename truncated at its *first*
dot — the longest dot-free prefix of the basename — stable across calls. -/
theorem name_eq_basename_before_first_dot (s : Slide) :
    s.name = String.mk ((ntBasename s.path).toList.takeWhile (fun c => c ≠ '.')) := by
  unfold Slide.name
  rw [pySplit_headD]

/-- Counterexample for C5 as stated: for the path `a.b.svs` the name is `a`,
not the claimed stem `a.b` with only the final extension removed. -/
theorem name_first_dot_counterexample :
    (Slide.mk "a.b.svs" "proc").name = "a"
    ∧ (Slide.mk "a.b.svs" "proc").name ≠ "a.b" :=
  ⟨by decide, by decide⟩

/-- C6: `slides` holds exactly one accessor per listing entry whose extension
is in the valid set — the count equals the number of valid entries, and for an
entry of the listing, its accessor is present iff its extension is valid. -/
theorem slides_extension_filter (ss : SlideSet) (ls : List String) (e : String)
    (hsimple : ∀ f ∈ ls, f.toList.head? ≠ some '/') (he : e ∈ ls) :
    (ss.slides ls).length
        = ls.countP (fun f => pySplitextExt f ∈ ss.valid_wsi_extensions)
    ∧ (Slide.mk (pathJoin ss.slides_path e) ss.processed_path ∈ ss.slides ls
        ↔ pySplitextExt e ∈ ss.valid_wsi_extensions) := by
  constructor
  · unfold SlideSet.slides
    rw [List.length_map, List.countP_eq_length_filter]
  · constructor
    · intro hmem
      unfold SlideSet.slides at hmem
      rcases List.mem_map.mp hmem with ⟨f, hfmem, hmk⟩
      have hff := List.mem_filter.mp hfmem
      have hpath : pathJoin ss.slides_path f = pathJoin ss.slides_path e := by
        have := congrArg Slide.path hmk
        simpa using this
      have hef : f = e :=
        pathJoinRightInj ss.slides_path f e (hsimple f hff.1) (hsimple e he) hpath
      subst hef
      simpa using hff.2
    · intro hext
      unfold SlideSet.slides
      refine List.mem_map.mpr ⟨e, List.mem_filter.mpr ⟨he, by simpa using hext⟩, rfl⟩

/-- Witness for C6: in the demo listing, `s1.svs` is accepted and counted;
the spurious `notes.txt` keeps the count at three. -/
theorem slides_extension_filter_witness :
    (demoSet.slides demoListing).length
        = demoListing.countP (fun f => pySplitextExt f ∈ demoSet.valid_wsi_extensions)
    ∧ (Slide.mk (pathJoin demoSet.slides_path "s1.svs") demoSet.processed_path
          ∈ demoSet.slides demoListing
        ↔ pySplitextExt "s1.svs" ∈ demoSet.valid_wsi_extensions) :=
  slides_extension_filter demoSet demoListing "s1.svs" (by decide) (by decide)

/-- C7: over readable slides, `save_rescaled_slides(n)` succeeds and writes
exactly `min(n, total)` files for positive `n`, and `total` files for `n = 0`;
an `n` beyond the collection size clamps silently instead of failing. -/
theorem save_rescaled_slides_clamp (ss : SlideSet) (env : ContainerEnv)
    (ls : List String) (n : Nat) (fs : FS)
    (hread : ∀ s ∈ ss.slides ls, (env s.path).isOk = true) :
    ∃ fs2, ss.save_rescaled_slides env ls n fs = .ok fs2 ∧
      fs2.length = fs.length
        + (if n = 0 then ss.total_slides ls else min n (ss.total_slides ls)) := by
  unfold SlideSet.save_rescaled_slides
  have htake : ∀ s ∈ (ss.slides ls).take (if n > ss.total_slides ls ∨ n = 0
      then ss.total_slides ls else n), (env s.path).isOk = true :=
    fun s hsm => hread s (List.mem_of_mem_take hsm)
  obtain ⟨fs2, hloop, hlen⟩ := saveScaledLoopOk env _ fs htake
  refine ⟨fs2, hloop, ?_⟩
  rw [hlen, List.length_take]
  unfold SlideSet.total_slides
  rcases Nat.eq_zero_or_pos n with h0 | hpos
  · subst h0; simp
  · by_cases hgt : n > (ss.slides ls).length
    · simp only [hgt, true_or, if_pos]
      simp [Nat.pos_iff_ne_zero.mp hpos]
      omega
    · have : ¬(n > (ss.slides ls).length ∨ n = 0) := by
        push_neg
        exact ⟨Nat.le_of_not_lt hgt, Nat.pos_iff_ne_zero.mp hpos⟩
      rw [if_neg this]
      simp [Nat.pos_iff_ne_zero.mp hpos]

/-- Witness for C7: asking for 7 slides of a 3-slide collection silently
processes all 3. -/
theorem save_rescaled_slides_clamp_witness :
    ∃ fs2, demoSet.save_rescaled_slides demoEnv demoListing 7 [] = .ok fs2 ∧
      fs2.length = ([] : FS).length
        + (if 7 = 0 then demoSet.total_slides demoListing
           else min 7 (demoSet.total_slides demoListing)) :=
  save_rescaled_slides_clamp demoSet demoEnv demoListing 7 [] (by decide)

/-- C8 (bug evidence): in the three-slide scenario the summary record carries
the fixed keys, yet the minimum-size entry is
`{"slide": "s1", "height": 10000}` — the minimal *size* value filed under the
inner key `"height"` — while the maximum-size entry correctly uses `"size"`. -/
theorem min_size_slide_key_bug :
    demoSet.min_size_slide demoEnv demoListing
      = .ok (.tagged "s1" "height" 10000)
    ∧ demoSet.max_size_slide demoEnv demoListing
      = .ok (.tagged "s3" "size" 15000)
    ∧ (demoSet.slides_stats demoEnv demoListing).map (fun l => l.map Prod.fst)
      = .ok ["no_of_slides", "max_width", "max_height", "max_size",
             "min_width", "min_height", "min_size",
             "avg_width", "avg_height", "avg_size"]
    ∧ (demoSet.slides_stats demoEnv demoListing).map
        (fun l => l.contains ("min_size", StatVal.tagged "s1" "height" 10000))
      = .ok true :=
  ⟨by decide, by decide, by decide, by decide⟩

/-- C9: `scaled_image_path` is a pure function of the slide name, the output
directory, the scale factor and the container dimensions: two slides agreeing
on those produce character-for-character identical results, whatever their
paths or environments otherwise are. -/
theorem scaled_image_path_pure (env env2 : ContainerEnv) (s s2 : Slide) (sf : Nat)
    (hname : s.name = s2.name) (hproc : s.processed_path = s2.processed_path)
    (henv : env s.path = env2 s2.path) :
    s.scaled_image_path env sf = s2.scaled_image_path env2 sf := by
  unfold Slide.scaled_image_path Slide.breadcumb Slide.resampled_dimensions
    Slide.dimensions Slide.wsiDims
  rw [henv, hname, hproc]

/-- Witness for C9: slides `a/x.svs` and `b/x.svs`, read through different
environments that agree on the dimensions, give identical path strings. -/
theorem scaled_image_path_pure_witness :
    slideLeft.scaled_image_path envLeft 32 = slideRight.scaled_image_path envRight 32 :=
  scaled_image_path_pure envLeft envRight slideLeft slideRight 32 (by decide)
    (by decide) (by decide)

/-- C10: the wildcard branch of `_breadcumb` is unreachable — every successful
result has the full deterministic format derived from actually-read dimensions,
and an unreadable container propagates its error instead of producing the
wildcard pattern. -/
theorem breadcumb_wildcard_unreachable (env : ContainerEnv) (s : Slide)
    (dir : String) (sf : Nat) :
    (∀ r, s.breadcumb env dir sf = .ok r →
      ∃ w h, env s.path = .ok w h ∧ 0 < sf ∧
        r = pathJoin dir (s.name ++ "-" ++ toString sf ++ "x-" ++ toString w ++ "x"
          ++ toString h ++ "-" ++ toString (w / sf) ++ "x" ++ toString (h / sf)
          ++ "." ++ IMG_EXT))
    ∧ (env s.path = .corrupt → s.breadcumb env dir sf = .error .openSlideError)
    ∧ (env s.path = .missing → s.breadcumb env dir sf = .error .fileNotFoundError) := by
  refine ⟨?_, ?_, ?_⟩
  · intro r hr
    cases henv : env s.path with
    | ok w h =>
      rcases Nat.eq_zero_or_pos sf with hsf | hsf
      · subst hsf
        unfold Slide.breadcumb Slide.resampled_dimensions Slide.dimensions
          Slide.wsiDims at hr
        rw [henv] at hr
        simp at hr
      · rw [breadcumbOk env s dir sf w h hsf henv] at hr
        exact ⟨w, h, rfl, hsf, (Except.ok.injEq _ _ ▸ hr).symm⟩
    | corrupt =>
      unfold Slide.breadcumb Slide.resampled_dimensions Slide.dimensions
        Slide.wsiDims at hr
      rw [henv] at hr
      simp at hr
    | missing =>
      unfold Slide.breadcumb Slide.resampled_dimensions Slide.dimensions
        Slide.wsiDims at hr
      rw [henv] at hr
      simp at hr
  · intro henv
    unfold Slide.breadcumb Slide.resampled_dimensions Slide.dimensions Slide.wsiDims
    rw [henv]
  · intro henv
    unfold Slide.breadcumb Slide.resampled_dimensions Slide.dimensions Slide.wsiDims
    rw [henv]

/-- Witness for C10: a successful `_breadcumb` call on the small slide yields
the deterministic format, never the wildcard. -/
theorem breadcumb_wildcard_unreachable_witness :
    ∃ w h, envSmall slideSmall.path = .ok w h ∧ 0 < 32 ∧
      "out/a-32x-100x5-3x0.png" = pathJoin "out" (slideSmall.name ++ "-"
        ++ toString 32 ++ "x-" ++ toString w ++ "x" ++ toString h ++ "-"
        ++ toString (w / 32) ++ "x" ++ toString (h / 32) ++ "." ++ IMG_EXT) :=
  (breadcumb_wildcard_unreachable envSmall slideSmall "out" 32).1
    "out/a-32x-100x5-3x0.png" (by decide)
